import Mathlib

/-
Verification development for the whatsapp session-manager service
(src/index.js). The JS service keeps a mutable object `clients` mapping a
client identifier to a session object; sessions are mutated by collaborator
lifecycle events; credential material lives in one subdirectory per
identifier under SESSIONS_DIR, next to a shared client_info.json metadata
file. We embed the registry as an association list (JS objects preserve
insertion order and hold at most one binding per key), sessions as records,
and each route handler or event handler as an explicit state-passing
function. Collaborator outcomes (whether client.initialize, logout or
destroy succeed) are passed in as explicit oracle arguments.
-/

set_option autoImplicit false

namespace WhatsappCrawler

/-! ## Association-list maps (model of JS object maps) -/

/-- First binding for key `k`, mirroring JS property lookup. -/
def alistGet {κ α : Type} [DecidableEq κ] (l : List (κ × α)) (k : κ) : Option α :=
  match l with
  | [] => none
  | (k1, v) :: rest => if k1 = k then some v else alistGet rest k

/-- JS assignment `obj[k] = v`: replaces the binding in place when the key is
present, otherwise appends it. -/
def alistSet {κ α : Type} [DecidableEq κ] (l : List (κ × α)) (k : κ) (v : α) :
    List (κ × α) :=
  match l with
  | [] => [(k, v)]
  | (k1, w) :: rest =>
      if k1 = k then (k1, v) :: rest else (k1, w) :: alistSet rest k v

/-- JS `delete obj[k]`: removes every binding for `k` (there is at most one
in a JS object). -/
def alistDel {κ α : Type} [DecidableEq κ] (l : List (κ × α)) (k : κ) :
    List (κ × α) :=
  match l with
  | [] => []
  | (k1, v) :: rest =>
      if k1 = k then alistDel rest k else (k1, v) :: alistDel rest k

/-- The keys of the map, in insertion order. -/
def alistKeys {κ α : Type} (l : List (κ × α)) : List κ := l.map Prod.fst

/-! ## Sessions and collaborator lifecycle events -/

/-- Status strings assigned to `client.status` in src/index.js. -/
inductive SessionStatus : Type
  | initializing
  | qr_ready
  | ready
  | authenticated
  | auth_failure
  | disconnected
  | loading
  | error
deriving DecidableEq, Repr

/-- The mutable fields the service attaches to a collaborator client object:
`client.status`, `client.qr`, `client.clientId`, `client.error`. -/
structure Session : Type where
  clientId : String
  status : SessionStatus
  qr : Option String
  error : Option String
deriving DecidableEq, Repr

/-- The session object as constructed by initializeClient before any event
arrives: status initializing, qr null (the `error` property is absent). -/
def newClient (id : String) : Session :=
  { clientId := id, status := SessionStatus.initializing, qr := none,
    error := none }

/-- Collaborator lifecycle events the service subscribes to. -/
inductive WEvent : Type
  | qr (payload : String)
  | ready
  | authenticated
  | authFailure (msg : String)
  | disconnected (reason : String)
  | loadingScreen (percent : Nat) (message : String)
deriving DecidableEq, Repr

/-- Effect of one lifecycle event handler on the session object itself
(src/index.js lines 65-112), leaving aside the cross-cutting effects
(the persistence write on ready and the eviction timer on disconnected,
modelled separately): the qr handler sets status qr_ready and stores the
payload; the ready handler sets status ready and clears qr; the
authenticated, auth_failure, disconnected and loading_screen handlers set
only the status and leave qr untouched. -/
def applyEvent (c : Session) (e : WEvent) : Session :=
  match e with
  | WEvent.qr p => { c with status := SessionStatus.qr_ready, qr := some p }
  | WEvent.ready => { c with status := SessionStatus.ready, qr := none }
  | WEvent.authenticated => { c with status := SessionStatus.authenticated }
  | WEvent.authFailure _ => { c with status := SessionStatus.auth_failure }
  | WEvent.disconnected _ => { c with status := SessionStatus.disconnected }
  | WEvent.loadingScreen _ _ => { c with status := SessionStatus.loading }

/-! ## initializeClient -/

/-- Outcome of awaiting `client.initialize()`. -/
inductive InitResult : Type
  | success
  | failure (msg : String)
deriving DecidableEq, Repr

/-- What initializeClient has done when it reaches its first suspend point
(the await on `client.initialize()`), or its early return. -/
inductive CreatePhase1 : Type
  | earlyReturn (c : Session)
  | suspended (c : Session)
deriving DecidableEq, Repr

/-- src/index.js lines 39-61 up to the await on `client.initialize()`:
if `clients[clientId]` exists with status in initializing, authenticated or
ready, return it; otherwise construct a fresh client object and suspend.
The second component is the registry as it stands at that point: the source
has not written to `clients` yet. -/
def initializeClient_phase1 (reg : List (String × Session)) (id : String) :
    CreatePhase1 × List (String × Session) :=
  match alistGet reg id with
  | some c =>
      if c.status = SessionStatus.initializing ∨
          c.status = SessionStatus.authenticated ∨
          c.status = SessionStatus.ready then
        (CreatePhase1.earlyReturn c, reg)
      else
        (CreatePhase1.suspended (newClient id), reg)
  | none => (CreatePhase1.suspended (newClient id), reg)

/-- Result of one initializeClient call: the registry afterwards, the
returned session or thrown error message, and the final state of the session
object constructed by this call (none on the early-return path). -/
structure CreateResult : Type where
  registry : List (String × Session)
  outcome : Except String Session
  constructed : Option Session
deriving Repr

/-- src/index.js lines 39-125. After phase 1, the source awaits
`client.initialize()`; on success it runs `clients[clientId] = client` and
returns the client, on failure it sets the object to status error with its
error field, and rethrows without registering anything. -/
def initializeClient (reg : List (String × Session)) (id : String)
    (r : InitResult) : CreateResult :=
  match initializeClient_phase1 reg id with
  | (CreatePhase1.earlyReturn c, reg2) =>
      { registry := reg2, outcome := Except.ok c, constructed := none }
  | (CreatePhase1.suspended c, reg2) =>
      match r with
      | InitResult.success =>
          { registry := alistSet reg2 id c, outcome := Except.ok c,
            constructed := some c }
      | InitResult.failure msg =>
          { registry := reg2, outcome := Except.error msg,
            constructed :=
              some { c with status := SessionStatus.error,
                            error := some msg } }

/-- Responses of POST /session/start (src/index.js lines 190-216). -/
inductive StartResponse : Type
  | badRequest
  | alreadyExists (st : SessionStatus)
  | started (st : SessionStatus)
  | serverError (msg : String)
deriving DecidableEq, Repr

/-- POST /session/start: 400 without a clientId; if `clients[clientId]` is
set (any status) answer "Client already exists" without calling
initializeClient; otherwise call initializeClient and report its status, or
catch the thrown error as a 500. -/
def sessionStartRoute (reg : List (String × Session)) (body : Option String)
    (r : InitResult) : List (String × Session) × StartResponse :=
  match body with
  | none => (reg, StartResponse.badRequest)
  | some id =>
    match alistGet reg id with
    | some c => (reg, StartResponse.alreadyExists c.status)
    | none =>
        let res := initializeClient reg id r
        match res.outcome with
        | Except.ok c => (res.registry, StartResponse.started c.status)
        | Except.error m => (res.registry, StartResponse.serverError m)

/-! ## Heap-level system model: sessions with object identity and the
disconnect grace timer

The disconnected handler (src/index.js lines 94-106) schedules
a 5000 ms timeout whose callback checks that the client object still reads
status disconnected and then deletes the registry entry.
The callback closes over the client OBJECT, while the delete acts on the
registry KEY, so we model a heap of session objects addressed by reference
next to the registry mapping identifiers to references, and armed timers as
(closed-over reference, identifier, delay in ms) triples in scheduling
order. -/

structure SysState : Type where
  heap : List (Nat × Session)
  registry : List (String × Nat)
  timers : List (Nat × String × Nat)
  nextRef : Nat
deriving DecidableEq, Repr

def initialSys : SysState :=
  { heap := [], registry := [], timers := [], nextRef := 0 }

/-- The fixed delay passed to setTimeout in the disconnected handler. -/
def graceDelayMs : Nat := 5000

/-- Allocate a fresh session object for `id` and bind the identifier to it,
as the success path of initializeClient does. -/
def sysAlloc (s : SysState) (id : String) : SysState :=
  { s with
    heap := alistSet s.heap s.nextRef (newClient id)
    registry := alistSet s.registry id s.nextRef
    nextRef := s.nextRef + 1 }

/-- An initializeClient call whose `client.initialize()` succeeds, at the
system level: the guard of src/index.js line 41 keeps the existing object
when its status is initializing, authenticated or ready; any other bound
status (or no binding) leads to a fresh object replacing the binding.
Pending timers are left as they are: nothing cancels them. -/
def sysCreateOk (s : SysState) (id : String) : SysState :=
  match alistGet s.registry id with
  | some ref =>
      match alistGet s.heap ref with
      | some c =>
          if c.status = SessionStatus.initializing ∨
              c.status = SessionStatus.authenticated ∨
              c.status = SessionStatus.ready then s
          else sysAlloc s id
      | none => sysAlloc s id
  | none => sysAlloc s id

/-- Delivery of one collaborator event to the session object `ref`: the
handler updates the object, and the disconnected handler additionally arms a
grace timer closing over that object. -/
def sysEmit (s : SysState) (ref : Nat) (e : WEvent) : SysState :=
  match alistGet s.heap ref with
  | none => s
  | some c =>
      let s2 := { s with heap := alistSet s.heap ref (applyEvent c e) }
      match e with
      | WEvent.disconnected _ =>
          { s2 with timers := s2.timers ++ [(ref, c.clientId, graceDelayMs)] }
      | _ => s2

/-- The earliest armed timer fires: the callback re-reads the status of the
object it closed over and, when that object still reads disconnected,
deletes the identifier's CURRENT registry binding, whichever object that
binding now points to. -/
def sysFireTimer (s : SysState) : SysState :=
  match s.timers with
  | [] => s
  | (ref, id, _) :: rest =>
      match alistGet s.heap ref with
      | some c =>
          if c.status = SessionStatus.disconnected then
            { s with registry := alistDel s.registry id, timers := rest }
          else
            { s with timers := rest }
      | none => { s with timers := rest }

/-! ## DELETE /session/:clientId -/

/-- Outcome of awaiting `client.logout()` then `client.destroy()`. -/
inductive TeardownResult : Type
  | ok
  | err (msg : String)
deriving DecidableEq, Repr

/-- Responses of DELETE /session/:clientId (src/index.js lines 415-452). -/
inductive DeleteResponse : Type
  | destroyed (id : String)
  | diskOnly (id : String)
  | notFound
  | serverError (msg : String)
deriving DecidableEq, Repr

/-- Membership of a subdirectory name in the credential store. -/
def hasDir (dirs : List String) (id : String) : Bool :=
  match dirs with
  | [] => false
  | d :: rest => if d = id then true else hasDir rest id

/-- Recursive removal of the identifier subdirectory, as fs.rmSync does. -/
def removeDir (dirs : List String) (id : String) : List String :=
  match dirs with
  | [] => []
  | d :: rest => if d = id then removeDir rest id else d :: removeDir rest id

/-- DELETE /session/:clientId. With a live session the whole logout,
destroy, disk removal, registry delete sequence sits in one try block: when
logout or destroy throws, the catch answers 500 and the later cleanup steps
never run. Without a live session, the handler removes the subdirectory when
it exists (disk-only outcome) and otherwise answers 404. Returns the
registry, the directories and the response. -/
def destroySessionRoute (reg : List (String × Session)) (dirs : List String)
    (id : String) (t : TeardownResult) :
    List (String × Session) × List String × DeleteResponse :=
  match alistGet reg id with
  | some _ =>
      match t with
      | TeardownResult.ok =>
          (alistDel reg id, removeDir dirs id, DeleteResponse.destroyed id)
      | TeardownResult.err m => (reg, dirs, DeleteResponse.serverError m)
  | none =>
      if hasDir dirs id then
        (reg, removeDir dirs id, DeleteResponse.diskOnly id)
      else
        (reg, dirs, DeleteResponse.notFound)

/-! ## Discovery and rehydration at startup -/

/-- One entry of the credential store directory as discovery sees it: its
name, whether statSync reports a directory, and the file names inside. -/
structure DirEntry : Type where
  name : String
  isDir : Bool
  files : List String
deriving DecidableEq, Repr

/-- JS `String.prototype.includes` on char lists. -/
def containsSub (pat : List Char) : List Char → Bool
  | [] => decide (pat = [])
  | c :: rest => pat.isPrefixOf (c :: rest) || containsSub pat rest

/-- The check that a file name includes the substring "session", from
src/index.js line 30. -/
def isSessionFile (f : String) : Bool :=
  containsSub "session".data f.data

/-- A subdirectory qualifies when it is a directory holding at least one
file whose name signals session material. -/
def qualifies (e : DirEntry) : Bool :=
  e.isDir && e.files.any isSessionFile

/-- discoverExistingSessions (src/index.js lines 17-36): nothing when the
sessions directory is missing, otherwise the names of the qualifying
subdirectories in directory order. -/
def discoverExistingSessions (dirExists : Bool) (entries : List DirEntry) :
    List String :=
  if dirExists then (entries.filter qualifies).map DirEntry.name else []

/-- initializeExistingSessions (src/index.js lines 156-171): for each
discovered identifier in order, await initializeClient inside a try whose
catch only logs, so one failure leaves the registry as it was and the loop
moves on. `oracle` gives each identifier's `client.initialize()` outcome. -/
def initializeExistingSessions (reg : List (String × Session))
    (dirExists : Bool) (entries : List DirEntry)
    (oracle : String → InitResult) : List (String × Session) :=
  (discoverExistingSessions dirExists entries).foldl
    (fun r id => (initializeClient r id (oracle id)).registry) reg

/-! ## client_info.json persistence -/

/-- One record of client_info.json. -/
structure ClientRecord : Type where
  lastReady : String
  status : String
deriving DecidableEq, Repr

/-- The shared metadata file: absent, present but failing to read or parse
(`lost` records what it held, unrecoverable by the code), or valid JSON. -/
inductive InfoFile : Type
  | absent
  | corrupt (lost : List (String × ClientRecord))
  | valid (recs : List (String × ClientRecord))
deriving DecidableEq, Repr

/-- The read half of saveClientInfo (src/index.js lines 130-140): a missing
file yields the initial empty object, and a read or parse failure is caught
and resets to the empty object. -/
def readClientInfo : InfoFile → List (String × ClientRecord)
  | InfoFile.absent => []
  | InfoFile.corrupt _ => []
  | InfoFile.valid recs => recs

/-- saveClientInfo (src/index.js lines 128-153): read-modify-write of the
whole file, replacing only the current identifier's record with
(lastReady := now, status := "ready"); the write sits in its own try whose
catch only logs, so a failed write leaves the file as it was. The function
never throws. -/
def saveClientInfo (file : InfoFile) (id : String) (now : String)
    (writeOk : Bool) : InfoFile :=
  let recs := alistSet (readClientInfo file) id
    { lastReady := now, status := "ready" }
  if writeOk then InfoFile.valid recs else file

/-- The ready handler (src/index.js lines 72-80): set status ready, clear
qr, then call saveClientInfo. Returns the updated session object and the
metadata file afterwards. -/
def onReady (c : Session) (now : String) (file : InfoFile) (writeOk : Bool) :
    Session × InfoFile :=
  ({ c with status := SessionStatus.ready, qr := none },
   saveClientInfo file c.clientId now writeOk)

/-! ## Concrete scenario for the disconnect grace timer -/

/-- Step 1: create "a"; object 0 allocated and bound. -/
def c2state1 : SysState := sysCreateOk initialSys "a"

/-- Step 2: the collaborator reports disconnection of object 0; the grace
timer is armed. -/
def c2state2 : SysState := sysEmit c2state1 0 (WEvent.disconnected "gone")

/-- Step 3: a fresh create for "a" before the window elapses; object 1
replaces the binding. -/
def c2state3 : SysState := sysCreateOk c2state2 "a"

/-- Step 4: the old timer fires. -/
def c2state4 : SysState := sysFireTimer c2state3

/-! ## Lemmas about the association-list maps -/

theorem alistGet_set_self {κ α : Type} [DecidableEq κ]
    (l : List (κ × α)) (k : κ) (v : α) :
    alistGet (alistSet l k v) k = some v := by
  induction l with
  | nil => simp [alistSet, alistGet]
  | cons p rest ih =>
      obtain ⟨k1, w⟩ := p
      by_cases h : k1 = k
      · simp [alistSet, alistGet, h]
      · simp [alistSet, alistGet, h, ih]

theorem alistGet_set_ne {κ α : Type} [DecidableEq κ]
    (l : List (κ × α)) (k j : κ) (v : α) (hj : j ≠ k) :
    alistGet (alistSet l k v) j = alistGet l j := by
  induction l with
  | nil =>
      simp only [alistSet, alistGet]
      rw [if_neg (fun h => hj h.symm)]
  | cons p rest ih =>
      obtain ⟨k1, w⟩ := p
      by_cases h : k1 = k
      · subst h
        simp only [alistSet, if_pos rfl, alistGet]
        rw [if_neg (fun h => hj h.symm), if_neg (fun h => hj h.symm)]
      · simp [alistSet, alistGet, h, ih]

theorem alistGet_del_self {κ α : Type} [DecidableEq κ]
    (l : List (κ × α)) (k : κ) :
    alistGet (alistDel l k) k = none := by
  induction l with
  | nil => rfl
  | cons p rest ih =>
      obtain ⟨k1, w⟩ := p
      by_cases h : k1 = k
      · simp [alistDel, h, ih]
      · simp [alistDel, alistGet, h, ih]

theorem alistSet_cons_pos {κ α : Type} [DecidableEq κ]
    (rest : List (κ × α)) (k1 k : κ) (w v : α) (h : k1 = k) :
    alistSet ((k1, w) :: rest) k v = (k1, v) :: rest := by
  simp [alistSet, h]

theorem alistSet_cons_neg {κ α : Type} [DecidableEq κ]
    (rest : List (κ × α)) (k1 k : κ) (w v : α) (h : ¬k1 = k) :
    alistSet ((k1, w) :: rest) k v = (k1, w) :: alistSet rest k v := by
  simp [alistSet, h]

theorem mem_alistKeys_set {κ α : Type} [DecidableEq κ]
    (l : List (κ × α)) (k j : κ) (v : α) :
    j ∈ alistKeys (alistSet l k v) ↔ j ∈ alistKeys l ∨ j = k := by
  induction l with
  | nil => simp [alistSet, alistKeys]
  | cons p rest ih =>
      obtain ⟨k1, w⟩ := p
      by_cases h : k1 = k
      · rw [alistSet_cons_pos rest k1 k w v h]
        subst h
        simp only [alistKeys, List.map_cons, List.mem_cons]
        tauto
      · rw [alistSet_cons_neg rest k1 k w v h]
        simp only [alistKeys] at ih
        simp only [alistKeys, List.map_cons, List.mem_cons]
        rw [ih]
        tauto

theorem alistKeys_set_nodup {κ α : Type} [DecidableEq κ]
    (l : List (κ × α)) (k : κ) (v : α) (h : (alistKeys l).Nodup) :
    (alistKeys (alistSet l k v)).Nodup := by
  induction l with
  | nil => simp [alistSet, alistKeys]
  | cons p rest ih =>
      obtain ⟨k1, w⟩ := p
      simp only [alistKeys, List.map_cons, List.nodup_cons] at h
      by_cases hk : k1 = k
      · subst hk
        simpa [alistSet, alistKeys, List.nodup_cons] using h
      · simp only [alistSet, hk, if_false, alistKeys, List.map_cons,
          List.nodup_cons]
        refine ⟨?_, ih h.2⟩
        intro hmem
        rcases (mem_alistKeys_set rest k k1 v).1 hmem with h1 | h1
        · exact h.1 h1
        · exact hk h1

theorem hasDir_removeDir (dirs : List String) (id : String) :
    hasDir (removeDir dirs id) id = false := by
  induction dirs with
  | nil => rfl
  | cons d rest ih =>
      by_cases h : d = id
      · simp [removeDir, h, ih]
      · simp [removeDir, hasDir, h, ih]

/-! ## Lemmas about initializeClient -/

theorem initializeClient_phase1_snd (reg : List (String × Session))
    (id : String) : (initializeClient_phase1 reg id).2 = reg := by
  unfold initializeClient_phase1
  cases alistGet reg id with
  | none => rfl
  | some c =>
      dsimp only
      split <;> rfl

theorem initializeClient_phase1_none (reg : List (String × Session))
    (id : String) (h : alistGet reg id = none) :
    initializeClient_phase1 reg id
      = (CreatePhase1.suspended (newClient id), reg) := by
  unfold initializeClient_phase1
  rw [h]

theorem initializeClient_none_success (reg : List (String × Session))
    (id : String) (h : alistGet reg id = none) :
    initializeClient reg id InitResult.success
      = { registry := alistSet reg id (newClient id),
          outcome := Except.ok (newClient id),
          constructed := some (newClient id) } := by
  unfold initializeClient
  rw [initializeClient_phase1_none reg id h]

theorem initializeClient_none_failure (reg : List (String × Session))
    (id msg : String) (h : alistGet reg id = none) :
    initializeClient reg id (InitResult.failure msg)
      = { registry := reg, outcome := Except.error msg,
          constructed :=
            some { clientId := id, status := SessionStatus.error,
                   qr := none, error := some msg } } := by
  unfold initializeClient
  rw [initializeClient_phase1_none reg id h]
  rfl

theorem initializeClient_failure_registry (reg : List (String × Session))
    (id msg : String) :
    (initializeClient reg id (InitResult.failure msg)).registry = reg := by
  unfold initializeClient
  cases hp : initializeClient_phase1 reg id with
  | mk p reg2 =>
      have hreg2 : reg2 = reg := by
        have := initializeClient_phase1_snd reg id
        rw [hp] at this
        exact this
      cases p <;> simp [hreg2]

theorem initializeClient_get_ne (reg : List (String × Session))
    (id : String) (r : InitResult) (j : String) (hj : j ≠ id) :
    alistGet (initializeClient reg id r).registry j = alistGet reg j := by
  unfold initializeClient
  cases hp : initializeClient_phase1 reg id with
  | mk p reg2 =>
      have hreg2 : reg2 = reg := by
        have := initializeClient_phase1_snd reg id
        rw [hp] at this
        exact this
      cases p with
      | earlyReturn c => simp [hreg2]
      | suspended c =>
          cases r with
          | success => simp [hreg2, alistGet_set_ne reg id j c hj]
          | failure m => simp [hreg2]

theorem initializeClient_skip (reg : List (String × Session)) (id : String)
    (r : InitResult) (h : alistGet reg id = some (newClient id)) :
    (initializeClient reg id r).registry = reg := by
  unfold initializeClient initializeClient_phase1
  rw [h]
  simp [newClient]

theorem initializeClient_keys_nodup (reg : List (String × Session))
    (id : String) (r : InitResult) (h : (alistKeys reg).Nodup) :
    (alistKeys (initializeClient reg id r).registry).Nodup := by
  unfold initializeClient
  cases hp : initializeClient_phase1 reg id with
  | mk p reg2 =>
      have hreg2 : reg2 = reg := by
        have := initializeClient_phase1_snd reg id
        rw [hp] at this
        exact this
      cases p with
      | earlyReturn c => simpa [hreg2] using h
      | suspended c =>
          cases r with
          | success => simpa [hreg2] using alistKeys_set_nodup reg id c h
          | failure m => simpa [hreg2] using h

/-! ## Claims about initializeClient: C1, C4, C9 -/

/-- C1, counterexample: the claim says create registers the new Session
before suspending on the handshake start, so a second concurrent create
observes the in-progress Session. On the empty registry, at the suspend
point of the first create for "a" the registry is still empty, and a second
create at that point does not take the early-return branch: it constructs a
second fresh Session for "a". -/
theorem C1_counterexample :
    (initializeClient_phase1 [] "a").2 = [] ∧
    alistGet (initializeClient_phase1 [] "a").2 "a" = none ∧
    (initializeClient_phase1 (initializeClient_phase1 [] "a").2 "a").1
      = CreatePhase1.suspended (newClient "a") := by
  exact ⟨rfl, rfl, rfl⟩

/-- C1, amended: initializeClient does not register the Session before
suspending on the handshake start: the registry at the suspend point is
exactly the registry at entry, so a second concurrent create for an
identifier that is not yet registered also reaches the suspend point
constructing a duplicate Session object; the Session is registered only
after `client.initialize()` resolves successfully. The registry map itself
still never holds two entries for one identifier. -/
theorem C1_amended (reg : List (String × Session)) (id : String) :
    (initializeClient_phase1 reg id).2 = reg ∧
    (alistGet reg id = none →
      (initializeClient_phase1 reg id).1
        = CreatePhase1.suspended (newClient id)) ∧
    (alistGet reg id = none →
      alistGet (initializeClient reg id InitResult.success).registry id
        = some (newClient id)) ∧
    (∀ r : InitResult, (alistKeys reg).Nodup →
      (alistKeys (initializeClient reg id r).registry).Nodup) := by
  refine ⟨initializeClient_phase1_snd reg id, ?_, ?_, ?_⟩
  · intro h
    rw [initializeClient_phase1_none reg id h]
  · intro h
    rw [initializeClient_none_success reg id h]
    exact alistGet_set_self reg id (newClient id)
  · intro r h
    exact initializeClient_keys_nodup reg id r h

/-- C1, witness: the amended statement evaluated on the empty registry. -/
theorem C1_witness :
    (initializeClient_phase1 [] "a").1 = CreatePhase1.suspended (newClient "a") ∧
    alistGet (initializeClient [] "a" InitResult.success).registry "a"
      = some (newClient "a") ∧
    (alistKeys (initializeClient [] "a" InitResult.success).registry).Nodup := by
  exact ⟨(C1_amended [] "a").2.1 rfl, (C1_amended [] "a").2.2.1 rfl,
    (C1_amended [] "a").2.2.2 InitResult.success (by simp [alistKeys])⟩

/-- C4, counterexample: the claim says a synchronously failing handshake
start still makes create return the Session (status error) and leaves it
registered. On the empty registry, a create for "a" whose initialize fails
with "boom" throws (outcome is the error, not a returned Session) and
registers nothing. -/
theorem C4_counterexample :
    (initializeClient [] "a" (InitResult.failure "boom")).outcome
      = Except.error "boom" ∧
    alistGet (initializeClient [] "a" (InitResult.failure "boom")).registry "a"
      = none := by
  exact ⟨rfl, rfl⟩

/-- C4, amended: when the handshake start fails, initializeClient sets the
constructed Session object to status error with its error field set, but
rethrows the failure instead of returning the Session, and the Session is
not registered in the registry; POST /session/start surfaces the error as a
500 to its caller. -/
theorem C4_amended (reg : List (String × Session)) (id msg : String)
    (h : alistGet reg id = none) :
    (initializeClient reg id (InitResult.failure msg)).outcome
      = Except.error msg ∧
    (initializeClient reg id (InitResult.failure msg)).registry = reg ∧
    (initializeClient reg id (InitResult.failure msg)).constructed
      = some { clientId := id, status := SessionStatus.error, qr := none,
               error := some msg } ∧
    sessionStartRoute reg (some id) (InitResult.failure msg)
      = (reg, StartResponse.serverError msg) := by
  have hc := initializeClient_none_failure reg id msg h
  refine ⟨by rw [hc], by rw [hc], by rw [hc], ?_⟩
  unfold sessionStartRoute
  simp [h, hc]

/-- C4, witness: the amended statement evaluated on the empty registry. -/
theorem C4_witness :
    (initializeClient [] "a" (InitResult.failure "boom")).constructed
      = some { clientId := "a", status := SessionStatus.error, qr := none,
               error := some "boom" } ∧
    sessionStartRoute [] (some "a") (InitResult.failure "boom")
      = ([], StartResponse.serverError "boom") := by
  exact ⟨(C4_amended [] "a" "boom" rfl).2.2.1, (C4_amended [] "a" "boom" rfl).2.2.2⟩

/-- C9: when initializeClient's handshake start throws, the registry is
unchanged — in particular no entry for the identifier was added — so a
caller observing the error can retry create for the same identifier and the
retry takes the fresh-create path, returning a brand-new Session rather than
hitting the already-exists branch. -/
theorem C9_failure_atomic (reg : List (String × Session)) (id msg : String) :
    (initializeClient reg id (InitResult.failure msg)).registry = reg ∧
    (alistGet reg id = none →
      alistGet (initializeClient reg id (InitResult.failure msg)).registry id
        = none ∧
      (initializeClient
          (initializeClient reg id (InitResult.failure msg)).registry
          id InitResult.success).outcome = Except.ok (newClient id)) := by
  refine ⟨initializeClient_failure_registry reg id msg, ?_⟩
  intro h
  rw [initializeClient_failure_registry reg id msg]
  exact ⟨h, by rw [initializeClient_none_success reg id h]⟩

/-- C9, witness: evaluated on the empty registry. -/
theorem C9_witness :
    alistGet (initializeClient [] "a" (InitResult.failure "boom")).registry "a"
      = none ∧
    (initializeClient
        (initializeClient [] "a" (InitResult.failure "boom")).registry
        "a" InitResult.success).outcome = Except.ok (newClient "a") := by
  exact (C9_failure_atomic [] "a" "boom").2 rfl

/-! ## C2: the disconnect grace timer -/

/-- C2, counterexample: the claim says a fresh create for the same
identifier before the grace window elapses keeps the new Session, the old
timer having no effect on it. In the concrete run, after "a" disconnects a
fresh create binds a new Session (object 1, status initializing, not
disconnected and never replaced afterwards); yet when the old timer fires it
finds the old object 0 still disconnected and deletes the identifier's
current registry binding, evicting the new Session: "a" is gone from the
registry. -/
theorem C2_counterexample :
    alistGet c2state3.registry "a" = some 1 ∧
    alistGet c2state3.heap 1 = some (newClient "a") ∧
    (sysFireTimer c2state3).registry = [] ∧
    alistGet c2state4.registry "a" = none := by
  exact ⟨rfl, rfl, rfl, rfl⟩

/-- C2, amended: when a Session transitions to disconnected, a fixed
5000 ms grace timer is armed, closing over the session object. When the
timer fires, if that old object still reads disconnected, the identifier's
current registry binding is deleted — whether or not a fresh create has
replaced it, so a replacing Session is evicted too; the registry binding
survives the firing only when the old object's status left disconnected
first. -/
theorem C2_amended :
    (∀ (s : SysState) (ref : Nat) (c : Session) (r : String),
      alistGet s.heap ref = some c →
      (sysEmit s ref (WEvent.disconnected r)).timers
        = s.timers ++ [(ref, c.clientId, graceDelayMs)]) ∧
    (∀ (s : SysState) (ref : Nat) (id : String) (d : Nat)
        (rest : List (Nat × String × Nat)) (c : Session),
      s.timers = (ref, id, d) :: rest →
      alistGet s.heap ref = some c →
      c.status = SessionStatus.disconnected →
      alistGet (sysFireTimer s).registry id = none) ∧
    (∀ (s : SysState) (ref : Nat) (id : String) (d : Nat)
        (rest : List (Nat × String × Nat)) (c : Session),
      s.timers = (ref, id, d) :: rest →
      alistGet s.heap ref = some c →
      c.status ≠ SessionStatus.disconnected →
      (sysFireTimer s).registry = s.registry) := by
  refine ⟨?_, ?_, ?_⟩
  · intro s ref c r h
    unfold sysEmit
    rw [h]
  · intro s ref id d rest c ht hh hs
    unfold sysFireTimer
    rw [ht]
    dsimp only
    rw [hh]
    dsimp only
    rw [if_pos hs]
    exact alistGet_del_self s.registry id
  · intro s ref id d rest c ht hh hs
    unfold sysFireTimer
    rw [ht]
    dsimp only
    rw [hh]
    dsimp only
    rw [if_neg hs]

/-- C2, witness: the amended statement evaluated on the concrete run — the
disconnect of object 0 arms the 5000 ms timer, and its firing after the
replacing create empties the registry binding for "a". -/
theorem C2_witness :
    (sysEmit c2state1 0 (WEvent.disconnected "gone")).timers
      = c2state1.timers ++ [(0, "a", graceDelayMs)] ∧
    alistGet (sysFireTimer c2state3).registry "a" = none := by
  refine ⟨C2_amended.1 c2state1 0 (newClient "a") "gone" rfl, ?_⟩
  exact C2_amended.2.1 c2state3 0 "a" graceDelayMs []
    { newClient "a" with status := SessionStatus.disconnected } rfl rfl rfl

/-! ## C3: the pairing payload -/

theorem applyEvent_qr_inv (c : Session) (e : WEvent)
    (h : c.status = SessionStatus.qr_ready → c.qr ≠ none) :
    (applyEvent c e).status = SessionStatus.qr_ready →
      (applyEvent c e).qr ≠ none := by
  cases e <;> simp [applyEvent]

theorem foldl_qr_inv (evs : List WEvent) :
    ∀ c : Session, (c.status = SessionStatus.qr_ready → c.qr ≠ none) →
      ((evs.foldl applyEvent c).status = SessionStatus.qr_ready →
        (evs.foldl applyEvent c).qr ≠ none) := by
  induction evs with
  | nil => intro c h; simpa using h
  | cons e rest ih =>
      intro c h
      simp only [List.foldl_cons]
      exact ih (applyEvent c e) (applyEvent_qr_inv c e h)

/-- C3, counterexample: the claim says the qr field is cleared on any
transition to a different state, including authenticated, and is non-null
only in qr_ready. A qr event followed by authenticated leaves status
authenticated with the payload still set: the authenticated handler does
not clear client.qr. -/
theorem C3_counterexample :
    (applyEvent (applyEvent (newClient "a") (WEvent.qr "QRDATA"))
        WEvent.authenticated).status = SessionStatus.authenticated ∧
    (applyEvent (applyEvent (newClient "a") (WEvent.qr "QRDATA"))
        WEvent.authenticated).qr = some "QRDATA" := by
  exact ⟨rfl, rfl⟩

/-- C3, amended: along every event history the qr field is non-null
whenever the status is qr_ready, and it is set by the qr event and cleared
only by the ready transition: the authenticated, auth_failure, disconnected
and loading handlers leave it untouched, so the payload can remain non-null
in those states after a pairing event. -/
theorem C3_amended (id : String) (evs : List WEvent) :
    ((evs.foldl applyEvent (newClient id)).status = SessionStatus.qr_ready →
      (evs.foldl applyEvent (newClient id)).qr ≠ none) ∧
    (∀ (c : Session) (e : WEvent), e ≠ WEvent.ready →
      (∀ p : String, e ≠ WEvent.qr p) → (applyEvent c e).qr = c.qr) := by
  constructor
  · exact foldl_qr_inv evs (newClient id) (by intro h; simp [newClient] at h)
  · intro c e h1 h2
    cases e with
    | qr p => exact absurd rfl (h2 p)
    | ready => exact absurd rfl h1
    | authenticated => rfl
    | authFailure m => rfl
    | disconnected r => rfl
    | loadingScreen p m => rfl

/-- C3, witness: the amended statement evaluated on a one-event history and
on the authenticated transition. -/
theorem C3_witness :
    (([WEvent.qr "x"].foldl applyEvent (newClient "a")).qr ≠ none) ∧
    (applyEvent (newClient "a") WEvent.authenticated).qr = (newClient "a").qr := by
  constructor
  · exact (C3_amended "a" [WEvent.qr "x"]).1 rfl
  · exact (C3_amended "a" []).2 (newClient "a") WEvent.authenticated
      (by intro h; cases h) (fun p => by intro h; cases h)

/-! ## C5 and C6: DELETE /session/:clientId -/

/-- C5, counterexample: the claim says destroy removes the Session from the
registry and deletes its credential subdirectory unconditionally, even when
logout or teardown throws. With a live Session for "a" whose teardown
throws, the handler answers 500 and leaves both the registry entry and the
on-disk subdirectory in place. -/
theorem C5_counterexample :
    destroySessionRoute [("a", newClient "a")] ["a"] "a"
        (TeardownResult.err "boom")
      = ([("a", newClient "a")], ["a"], DeleteResponse.serverError "boom") := by
  exact rfl

/-- C5, amended: destroy on a live Session removes it from the registry and
deletes its credential subdirectory only when the logout and teardown
sequence succeeds; when teardown throws, the handler answers 500 and leaves
the registry entry and the disk state untouched, because the cleanup steps
sit after the throwing call inside the same try block. -/
theorem C5_amended (reg : List (String × Session)) (dirs : List String)
    (id : String) (c : Session) (h : alistGet reg id = some c) :
    destroySessionRoute reg dirs id TeardownResult.ok
      = (alistDel reg id, removeDir dirs id, DeleteResponse.destroyed id) ∧
    alistGet (destroySessionRoute reg dirs id TeardownResult.ok).1 id
      = none ∧
    hasDir (destroySessionRoute reg dirs id TeardownResult.ok).2.1 id
      = false ∧
    (∀ m : String, destroySessionRoute reg dirs id (TeardownResult.err m)
      = (reg, dirs, DeleteResponse.serverError m)) := by
  have hok : destroySessionRoute reg dirs id TeardownResult.ok
      = (alistDel reg id, removeDir dirs id, DeleteResponse.destroyed id) := by
    unfold destroySessionRoute
    rw [h]
  refine ⟨hok, ?_, ?_, ?_⟩
  · rw [hok]
    exact alistGet_del_self reg id
  · rw [hok]
    exact hasDir_removeDir dirs id
  · intro m
    unfold destroySessionRoute
    rw [h]

/-- C5, witness: the amended statement evaluated on a one-session registry. -/
theorem C5_witness :
    destroySessionRoute [("a", newClient "a")] ["a"] "a" TeardownResult.ok
      = ([], [], DeleteResponse.destroyed "a") ∧
    destroySessionRoute [("a", newClient "a")] ["a"] "a"
        (TeardownResult.err "x")
      = ([("a", newClient "a")], ["a"], DeleteResponse.serverError "x") := by
  exact ⟨(C5_amended [("a", newClient "a")] ["a"] "a" (newClient "a") rfl).1,
    (C5_amended [("a", newClient "a")] ["a"] "a" (newClient "a") rfl).2.2.2 "x"⟩

/-- C6, counterexample: the claim says two consecutive destroy calls on the
same identifier never end in an error. With a live Session for "a" whose
teardown throws both times, the first call answers 500 and leaves the
Session registered, so the second call throws again and also answers 500
rather than notFound. -/
theorem C6_counterexample :
    (destroySessionRoute
        (destroySessionRoute [("a", newClient "a")] [] "a"
          (TeardownResult.err "x")).1
        (destroySessionRoute [("a", newClient "a")] [] "a"
          (TeardownResult.err "x")).2.1
        "a" (TeardownResult.err "x")).2.2
      = DeleteResponse.serverError "x" := by
  exact rfl

/-- C6, amended: destroy for an identifier with no live Session deletes the
on-disk subdirectory when one exists and reports the distinct disk-only
outcome, and reports notFound when neither exists; and two consecutive
destroy calls are idempotent in effect provided any teardown invoked
succeeds: the second call then returns notFound. When a live Session's
teardown throws, the call answers with an error and leaves the Session
registered, so the second call can error as well. -/
theorem C6_amended (reg : List (String × Session)) (dirs : List String)
    (id : String) (t : TeardownResult) :
    (alistGet reg id = none → hasDir dirs id = true →
      destroySessionRoute reg dirs id t
        = (reg, removeDir dirs id, DeleteResponse.diskOnly id)) ∧
    (alistGet reg id = none → hasDir dirs id = false →
      destroySessionRoute reg dirs id t
        = (reg, dirs, DeleteResponse.notFound)) ∧
    (destroySessionRoute
        (destroySessionRoute reg dirs id TeardownResult.ok).1
        (destroySessionRoute reg dirs id TeardownResult.ok).2.1
        id TeardownResult.ok).2.2
      = DeleteResponse.notFound := by
  refine ⟨?_, ?_, ?_⟩
  · intro h hd
    unfold destroySessionRoute
    rw [h, if_pos hd]
  · intro h hd
    unfold destroySessionRoute
    rw [h]
    simp [hd]
  · cases hlive : alistGet reg id with
    | some c =>
        have h1 : destroySessionRoute reg dirs id TeardownResult.ok
            = (alistDel reg id, removeDir dirs id,
               DeleteResponse.destroyed id) := by
          unfold destroySessionRoute
          rw [hlive]
        rw [h1]
        unfold destroySessionRoute
        rw [alistGet_del_self reg id]
        simp [hasDir_removeDir dirs id]
    | none =>
        by_cases hd : hasDir dirs id = true
        · have h1 : destroySessionRoute reg dirs id TeardownResult.ok
              = (reg, removeDir dirs id, DeleteResponse.diskOnly id) := by
            unfold destroySessionRoute
            rw [hlive, if_pos hd]
          rw [h1]
          unfold destroySessionRoute
          rw [hlive]
          simp [hasDir_removeDir dirs id]
        · have h1 : destroySessionRoute reg dirs id TeardownResult.ok
              = (reg, dirs, DeleteResponse.notFound) := by
            unfold destroySessionRoute
            rw [hlive]
            simp [hd]
          rw [h1]
          unfold destroySessionRoute
          rw [hlive]
          simp [hd]

/-- C6, witness: the amended statement evaluated with only on-disk state. -/
theorem C6_witness :
    destroySessionRoute [] ["a"] "a" TeardownResult.ok
      = ([], [], DeleteResponse.diskOnly "a") ∧
    (destroySessionRoute
        (destroySessionRoute [] ["a"] "a" TeardownResult.ok).1
        (destroySessionRoute [] ["a"] "a" TeardownResult.ok).2.1
        "a" TeardownResult.ok).2.2
      = DeleteResponse.notFound := by
  exact ⟨(C6_amended [] ["a"] "a" TeardownResult.ok).1 rfl rfl,
    (C6_amended [] ["a"] "a" TeardownResult.ok).2.2⟩

/-! ## C7: discovery and rehydration -/

theorem mem_discover (entries : List DirEntry) (id : String) :
    id ∈ discoverExistingSessions true entries ↔
      ∃ e, e ∈ entries ∧ e.name = id ∧ e.isDir = true ∧
        ∃ f, f ∈ e.files ∧ isSessionFile f = true := by
  simp only [discoverExistingSessions, if_true, List.mem_map, List.mem_filter,
    qualifies, Bool.and_eq_true, List.any_eq_true]
  constructor
  · rintro ⟨e, ⟨he, hd, f, hf, hs⟩, hn⟩
    exact ⟨e, he, hn, hd, f, hf, hs⟩
  · rintro ⟨e, he, hn, hd, f, hf, hs⟩
    exact ⟨e, ⟨he, hd, f, hf, hs⟩, hn⟩

theorem rehydrate_get (oracle : String → InitResult) (id : String) :
    ∀ (ids : List String) (reg : List (String × Session)),
      (alistGet reg id = none →
        (alistGet (ids.foldl
            (fun r j => (initializeClient r j (oracle j)).registry) reg) id
          = some (newClient id) ↔
          id ∈ ids ∧ oracle id = InitResult.success)) ∧
      (alistGet reg id = some (newClient id) →
        alistGet (ids.foldl
            (fun r j => (initializeClient r j (oracle j)).registry) reg) id
          = some (newClient id)) := by
  intro ids
  induction ids with
  | nil =>
      intro reg
      constructor
      · intro h
        simp [h]
      · intro h
        simpa using h
  | cons j rest ih =>
      intro reg
      constructor
      · intro h
        simp only [List.foldl_cons]
        by_cases hj : j = id
        · subst hj
          cases ho : oracle j with
          | success =>
              rw [initializeClient_none_success reg j h]
              have h2 := (ih (alistSet reg j (newClient j))).2
                (alistGet_set_self reg j (newClient j))
              rw [h2]
              simp [ho]
          | failure m =>
              have hr : (initializeClient reg j (InitResult.failure m)).registry
                  = reg := initializeClient_failure_registry reg j m
              rw [hr]
              rw [(ih reg).1 h]
              simp [ho]
        · have hij : ¬id = j := fun he => hj he.symm
          have hpre : alistGet (initializeClient reg j (oracle j)).registry id
              = alistGet reg id :=
            initializeClient_get_ne reg j (oracle j) id hij
          rw [(ih ((initializeClient reg j (oracle j)).registry)).1
            (by rw [hpre]; exact h)]
          simp [List.mem_cons, hij]
      · intro h
        simp only [List.foldl_cons]
        by_cases hj : j = id
        · subst hj
          rw [initializeClient_skip reg j (oracle j) h]
          exact (ih reg).2 h
        · have hij : ¬id = j := fun he => hj he.symm
          have hpre : alistGet (initializeClient reg j (oracle j)).registry id
              = alistGet reg id :=
            initializeClient_get_ne reg j (oracle j) id hij
          exact (ih ((initializeClient reg j (oracle j)).registry)).2
            (by rw [hpre]; exact h)

theorem rehydrate_keys_nodup (oracle : String → InitResult) :
    ∀ (ids : List String) (reg : List (String × Session)),
      (alistKeys reg).Nodup →
      (alistKeys (ids.foldl
          (fun r j => (initializeClient r j (oracle j)).registry) reg)).Nodup := by
  intro ids
  induction ids with
  | nil => intro reg h; simpa using h
  | cons j rest ih =>
      intro reg h
      simp only [List.foldl_cons]
      exact ih _ (initializeClient_keys_nodup reg j (oracle j) h)

/-- C7: discovery at startup qualifies exactly the subdirectories holding
at least one file whose name contains "session"; rehydration then calls the
create path once per discovered identifier in order, and from the empty
startup registry an identifier ends up bound to its (unique) fresh Session
exactly when it was discovered and its handshake start succeeded — a
failure for one identifier leaves the others' rehydration untouched. -/
theorem C7_discovery (entries : List DirEntry) (oracle : String → InitResult)
    (id : String) :
    (id ∈ discoverExistingSessions true entries ↔
      ∃ e, e ∈ entries ∧ e.name = id ∧ e.isDir = true ∧
        ∃ f, f ∈ e.files ∧ isSessionFile f = true) ∧
    (alistGet (initializeExistingSessions [] true entries oracle) id
        = some (newClient id) ↔
      id ∈ discoverExistingSessions true entries ∧
        oracle id = InitResult.success) ∧
    (alistKeys (initializeExistingSessions [] true entries oracle)).Nodup := by
  refine ⟨mem_discover entries id, ?_, ?_⟩
  · unfold initializeExistingSessions
    exact (rehydrate_get oracle id (discoverExistingSessions true entries) []).1
      rfl
  · unfold initializeExistingSessions
    exact rehydrate_keys_nodup oracle (discoverExistingSessions true entries) []
      (by simp [alistKeys])

/-- C7, witness: one qualifying directory "a" next to a failing identifier
"b": "a" is rehydrated even though "b" fails. -/
theorem C7_witness :
    alistGet
      (initializeExistingSessions [] true
        [DirEntry.mk "b" true ["session.json"],
         DirEntry.mk "a" true ["session.json"]]
        (fun j => if j = "b" then InitResult.failure "boom"
                  else InitResult.success)) "a"
      = some (newClient "a") ∧
    alistGet
      (initializeExistingSessions [] true
        [DirEntry.mk "b" true ["session.json"],
         DirEntry.mk "a" true ["session.json"]]
        (fun j => if j = "b" then InitResult.failure "boom"
                  else InitResult.success)) "b"
      ≠ some (newClient "b") := by
  constructor
  · exact (C7_discovery
      [DirEntry.mk "b" true ["session.json"],
       DirEntry.mk "a" true ["session.json"]]
      (fun j => if j = "b" then InitResult.failure "boom"
                else InitResult.success) "a").2.1.mpr
      ⟨by decide, by decide⟩
  · intro hcontra
    have := (C7_discovery
      [DirEntry.mk "b" true ["session.json"],
       DirEntry.mk "a" true ["session.json"]]
      (fun j => if j = "b" then InitResult.failure "boom"
                else InitResult.success) "b").2.1.mp hcontra
    exact absurd this.2 (by decide)

/-! ## C8: the ready transition and its persistence write -/

/-- C8: the ready handler sets the Session to ready and triggers the
metadata write for its identifier; the resulting session object is the same
whatever the metadata file's condition and whether the write succeeds, so a
read, parse or write failure never alters the status (and saveClientInfo
catches both failures, so the triggering call never fails); on a successful
write the file holds the record (lastReady := now, status := "ready") under
the identifier, and on a failed write the file is simply left as it was. -/
theorem C8_ready_persistence (c : Session) (now : String) (file : InfoFile)
    (writeOk : Bool) :
    (onReady c now file writeOk).1.status = SessionStatus.ready ∧
    (onReady c now file writeOk).1 = (onReady c now InfoFile.absent true).1 ∧
    (writeOk = true →
      alistGet (readClientInfo (onReady c now file writeOk).2) c.clientId
        = some { lastReady := now, status := "ready" }) ∧
    (writeOk = false → (onReady c now file writeOk).2 = file) := by
  refine ⟨rfl, rfl, ?_, ?_⟩
  · intro hw
    subst hw
    unfold onReady saveClientInfo
    simp only [if_true]
    exact alistGet_set_self (readClientInfo file) c.clientId
      { lastReady := now, status := "ready" }
  · intro hw
    subst hw
    unfold onReady saveClientInfo
    simp

/-- C8, witness: evaluated on the absent file with a succeeding write and
on a corrupt file with a failing write. -/
theorem C8_witness :
    (onReady (newClient "a") "t" (InfoFile.corrupt []) false).1.status
      = SessionStatus.ready ∧
    alistGet
        (readClientInfo (onReady (newClient "a") "t" InfoFile.absent true).2)
        "a"
      = some { lastReady := "t", status := "ready" } ∧
    (onReady (newClient "a") "t" (InfoFile.corrupt []) false).2
      = InfoFile.corrupt [] := by
  exact ⟨(C8_ready_persistence (newClient "a") "t" (InfoFile.corrupt [])
      false).1,
    (C8_ready_persistence (newClient "a") "t" InfoFile.absent true).2.2.1 rfl,
    (C8_ready_persistence (newClient "a") "t" (InfoFile.corrupt [])
      false).2.2.2 rfl⟩

/-! ## C10: the read-modify-write of client_info.json -/

/-- C10: saveClientInfo read-modify-writes the whole shared file: when the
file exists and parses, every other identifier's record is preserved and
only the current identifier's record is replaced; when the read or parse
fails (or the file is absent) it restarts from the empty object, so the
written file holds only the current identifier's record and every other
identifier's previously stored record is discarded. -/
theorem C10_saveClientInfo_frame (recs lost : List (String × ClientRecord))
    (id now j : String) :
    alistGet (readClientInfo (saveClientInfo (InfoFile.valid recs) id now true))
        id
      = some { lastReady := now, status := "ready" } ∧
    (j ≠ id →
      alistGet (readClientInfo (saveClientInfo (InfoFile.valid recs) id now true))
          j
        = alistGet recs j) ∧
    (j ≠ id →
      alistGet
          (readClientInfo (saveClientInfo (InfoFile.corrupt lost) id now true))
          j
        = none) ∧
    (j ≠ id →
      alistGet (readClientInfo (saveClientInfo InfoFile.absent id now true)) j
        = none) := by
  refine ⟨?_, ?_, ?_, ?_⟩
  · unfold saveClientInfo
    simp only [readClientInfo, if_true]
    exact alistGet_set_self recs id { lastReady := now, status := "ready" }
  · intro hj
    unfold saveClientInfo
    simp only [readClientInfo, if_true]
    exact alistGet_set_ne recs id j { lastReady := now, status := "ready" } hj
  · intro hj
    unfold saveClientInfo
    simp only [readClientInfo, if_true]
    rw [alistGet_set_ne [] id j
      ({ lastReady := now, status := "ready" } : ClientRecord) hj]
    rfl
  · intro hj
    unfold saveClientInfo
    simp only [readClientInfo, if_true]
    rw [alistGet_set_ne [] id j
      ({ lastReady := now, status := "ready" } : ClientRecord) hj]
    rfl

/-- C10, witness: a valid file keeps the other identifier's record while a
corrupt file loses it. -/
theorem C10_witness :
    alistGet
        (readClientInfo
          (saveClientInfo
            (InfoFile.valid [("b", ClientRecord.mk "t0" "ready")]) "a" "t1"
            true)) "b"
      = some (ClientRecord.mk "t0" "ready") ∧
    alistGet
        (readClientInfo
          (saveClientInfo
            (InfoFile.corrupt [("b", ClientRecord.mk "t0" "ready")]) "a" "t1"
            true)) "b"
      = none := by
  constructor
  · have := (C10_saveClientInfo_frame [("b", ClientRecord.mk "t0" "ready")]
      [("b", ClientRecord.mk "t0" "ready")] "a" "t1" "b").2.1 (by decide)
    rw [this]
    rfl
  · exact (C10_saveClientInfo_frame [("b", ClientRecord.mk "t0" "ready")]
      [("b", ClientRecord.mk "t0" "ready")] "a" "t1" "b").2.2.1 (by decide)

end WhatsappCrawler
